import Mathlib

set_option maxRecDepth 40000

/-!
Shallow embedding of the pre-activity meal recommendation pipeline
(`app.py`).  The program is a chained LLM pipeline: one macro-ratio stage,
then, for each of the three categories Best / OK / Avoid, a candidate
generation stage (20 items) followed by a filtering stage (10 items).
Every stage builds a two-message prompt (`developer` then `user`) and sends
it through `prompt_model`, which calls the external generation service with
the fixed model `gpt-4o-mini` and temperature 0.7 and strips the reply.

The external service is modelled as an oracle (`Client`): for the n-th call
of a run it either returns the raw reply text or fails with a
`ServiceError`.  The orchestrator `main_run` mirrors the body of `main`
behind the "Get Recommendations" button: it threads the intermediate text
artifacts forward, appends every issued request to a log, and aborts on the
first service failure.
-/

/-- String of the characters obtained by stripping leading and trailing
whitespace from `s`; embedding of Python's `str.strip()` as used on every
reply in `prompt_model`. -/
def pyStrip (s : String) : String :=
  String.mk (((s.data.dropWhile Char.isWhitespace).reverse.dropWhile
    Char.isWhitespace).reverse)

/-- Proposition that `needle` occurs contiguously inside `hay`. -/
def substringOf (needle hay : String) : Prop :=
  needle.data <:+: hay.data

instance (n h : String) : Decidable (substringOf n h) :=
  List.decidableInfix n.data h.data

/-- A role-tagged chat message, one element of a prompt. -/
structure Message where
  role : String
  content : String
deriving Repr, DecidableEq

/-- One request to the generation service as assembled by `prompt_model`:
the message list, the model identifier and the sampling temperature. -/
structure Request where
  messages : List Message
  model : String
  temperature : ℚ
deriving Repr, DecidableEq

/-- Failure of a generation call (authentication, network or remote fault);
fatal to the pipeline and never retried. -/
inductive ServiceError where
  | auth : ServiceError
  | network : ServiceError
  | remote : ServiceError
deriving Repr, DecidableEq

/-- Oracle standing for the external generation service: the raw reply text
(or the failure) of the n-th call of a run. -/
abbrev Client := Nat → Except ServiceError String

/-- The two pipeline inputs collected by the presentation layer. -/
structure ActivityContext where
  activity : String
  time_until_hours : ℚ
deriving Repr, DecidableEq

/-- State threaded through a run: the (immutable) input context and the log
of requests issued so far, in order of issue. -/
structure RunState where
  ctx : ActivityContext
  log : List Request
deriving Repr, DecidableEq

/-- The final structure assembled by `main` from the four stage outputs. -/
structure AggregateRecommendation where
  macro_explanation : String
  best_list_10 : String
  ok_list_10 : String
  avoid_list_10 : String
deriving Repr, DecidableEq

/-- Embedding of `prompt_model`: sends `messages` to the service with model
`gpt-4o-mini` and temperature 0.7, strips the reply, and logs the request.
The failing call itself is logged (the HTTP call was issued) but its error
propagates. -/
def prompt_model (client : Client) (st : RunState) (messages : List Message) :
    Except ServiceError String × RunState :=
  let req : Request := ⟨messages, "gpt-4o-mini", 7/10⟩
  (Except.map pyStrip (client st.log.length), ⟨st.ctx, st.log ++ [req]⟩)

/-- User-instruction text of the macro-ratio stage (`step_one_get_macros`). -/
def step_one_user_content (activity : String) (time_until : ℚ) : String :=
  "\n    You are a sports nutrition expert. \n    The athlete is 17, has only convenience stores or fast-food places available \n    (7-Eleven, McDonald’s, Chipotle), \n    and the upcoming activity is "
    ++ activity ++ " in " ++ toString time_until
    ++ " hours.\n\n    What macronutrient ratio (carbs/protein/fats) do you recommend, and why?\n    Return a short explanation in plain text, no disclaimers.\n    "

/-- Message list of the macro-ratio stage. -/
def step_one_messages (activity : String) (time_until : ℚ) : List Message :=
  [⟨"developer", "You are a concise, helpful nutrition coach."⟩,
   ⟨"user", step_one_user_content activity time_until⟩]

/-- Embedding of `step_one_get_macros`. -/
def step_one_get_macros (client : Client) (st : RunState)
    (activity : String) (time_until : ℚ) :
    Except ServiceError String × RunState :=
  prompt_model client st (step_one_messages activity time_until)

/-- User-instruction text of the Best candidate-generation stage. -/
def generate_best_user_content (macro_summary : String) : String :=
  "\n    We have the following recommended macronutrient ratio: \n    "
    ++ macro_summary
    ++ "\n\n    Step: Create a bullet list of 20 potential 'Best' food/drink items \n    for a 17-year-old (convenience stores / fast-food).\n    - Each item should include approximate carbs/fats/protein percentages \n      in parentheses, e.g. (Carbs: 50, Fats: 20, Protein: 30).\n    - No disclaimers.\n    - Return only the bulleted list, 20 items total.\n    "

/-- Message list of the Best candidate-generation stage. -/
def generate_best_messages (macro_summary : String) : List Message :=
  [⟨"developer", "Generate 20 bullet-list items."⟩,
   ⟨"user", generate_best_user_content macro_summary⟩]

/-- Embedding of `generate_best_candidates`. -/
def generate_best_candidates (client : Client) (st : RunState)
    (macro_summary : String) : Except ServiceError String × RunState :=
  prompt_model client st (generate_best_messages macro_summary)

/-- User-instruction text of the Best filtering stage. -/
def filter_best_user_content (macro_summary candidate_text : String) : String :=
  "\n    We have these 20 'Best' candidate items (with approximate macros):\n    "
    ++ candidate_text
    ++ "\n\n    Our recommended macronutrient ratio is:\n    "
    ++ macro_summary
    ++ "\n\n    Now:\n    1) Evaluate each item qualitatively for how closely it matches the recommended macros.\n    2) Select the 10 closest matches (the best of the best).\n    3) Return them as a bullet list of 10 items, no extra commentary.\n    "

/-- Message list of the Best filtering stage. -/
def filter_best_messages (macro_summary candidate_text : String) : List Message :=
  [⟨"developer", "Filter to 10 items that best match macros."⟩,
   ⟨"user", filter_best_user_content macro_summary candidate_text⟩]

/-- Embedding of `filter_best_candidates`: a function of the macro text and
its own candidate pool only (no sibling-category text). -/
def filter_best_candidates (client : Client) (st : RunState)
    (macro_summary candidate_text : String) :
    Except ServiceError String × RunState :=
  prompt_model client st (filter_best_messages macro_summary candidate_text)

/-- User-instruction text of the OK candidate-generation stage. -/
def generate_ok_user_content (macro_summary : String) : String :=
  "\n    We have the following recommended macronutrient ratio:\n    "
    ++ macro_summary
    ++ "\n\n    Step: Create a bullet list of 20 'OK' food/drink items \n    for a 17-year-old (convenience stores / fast-food).\n    - These items should be acceptable, but not as ideal as the 'Best' items.\n    - Include approximate carbs/fats/protein percentages in parentheses.\n    - Return only the bulleted list, 20 items total, no disclaimers.\n    "

/-- Message list of the OK candidate-generation stage. -/
def generate_ok_messages (macro_summary : String) : List Message :=
  [⟨"developer", "Generate 20 'OK' bullet-list items."⟩,
   ⟨"user", generate_ok_user_content macro_summary⟩]

/-- Embedding of `generate_ok_candidates`. -/
def generate_ok_candidates (client : Client) (st : RunState)
    (macro_summary : String) : Except ServiceError String × RunState :=
  prompt_model client st (generate_ok_messages macro_summary)

/-- User-instruction text of the OK filtering stage; its third argument is
the already-filtered Best list, embedded verbatim after "The 'Best' list
is:". -/
def filter_ok_user_content (macro_summary candidate_text best_list_text : String) :
    String :=
  "\n    We have these 20 'OK' candidate items:\n    "
    ++ candidate_text
    ++ "\n\n    Our recommended macronutrient ratio is:\n    "
    ++ macro_summary
    ++ "\n\n    The 'Best' list is:\n    "
    ++ best_list_text
    ++ "\n\n    Now:\n    1) Evaluate each 'OK' item. Confirm it's not as ideal as the 'Best' list items.\n    2) Choose the 10 healthiest from this 'OK' pool.\n    3) Return them as a bullet list of 10 items, no extra commentary.\n    "

/-- Message list of the OK filtering stage. -/
def filter_ok_messages (macro_summary candidate_text best_list_text : String) :
    List Message :=
  [⟨"developer", "Filter to 10 items that are healthy but not as good as 'Best'."⟩,
   ⟨"user", filter_ok_user_content macro_summary candidate_text best_list_text⟩]

/-- Embedding of `filter_ok_candidates`: depends on the Best category via
its `best_list_text` argument. -/
def filter_ok_candidates (client : Client) (st : RunState)
    (macro_summary candidate_text best_list_text : String) :
    Except ServiceError String × RunState :=
  prompt_model client st
    (filter_ok_messages macro_summary candidate_text best_list_text)

/-- User-instruction text of the Avoid candidate-generation stage. -/
def generate_avoid_user_content (macro_summary : String) : String :=
  "\n    We have the following recommended macronutrient ratio:\n    "
    ++ macro_summary
    ++ "\n\n    Step: Create a bullet list of 20 'Avoid' food/drink items \n    for a 17-year-old with access to convenience stores or fast-food places.\n    - These are not ideal for the upcoming activity.\n    - Must include approximate carbs/fats/protein in parentheses.\n    - Focus on items that are very commonly chosen by a 17-year-old \n      but conflict with the recommended macros.\n    - Return only the bulleted list, 20 items total, no disclaimers.\n    "

/-- Message list of the Avoid candidate-generation stage. -/
def generate_avoid_messages (macro_summary : String) : List Message :=
  [⟨"developer", "Generate 20 'Avoid' bullet-list items."⟩,
   ⟨"user", generate_avoid_user_content macro_summary⟩]

/-- Embedding of `generate_avoid_candidates`. -/
def generate_avoid_candidates (client : Client) (st : RunState)
    (macro_summary : String) : Except ServiceError String × RunState :=
  prompt_model client st (generate_avoid_messages macro_summary)

/-- User-instruction text of the Avoid filtering stage. -/
def filter_avoid_user_content (macro_summary candidate_text : String) : String :=
  "\n    We have these 20 'Avoid' candidate items:\n    "
    ++ candidate_text
    ++ "\n\n    Our recommended macronutrient ratio is:\n    "
    ++ macro_summary
    ++ "\n\n    Now:\n    1) Evaluate each item as a poor choice for this scenario.\n    2) Which 10 are most likely to be chosen by a 17-year-old \n       but still conflict with the recommended macros?\n    3) Return them as a bullet list of 10 items, no extra commentary.\n    "

/-- Message list of the Avoid filtering stage. -/
def filter_avoid_messages (macro_summary candidate_text : String) : List Message :=
  [⟨"developer", "Select 10 'Avoid' items that are most tempting yet poor."⟩,
   ⟨"user", filter_avoid_user_content macro_summary candidate_text⟩]

/-- Embedding of `filter_avoid_candidates`: a function of the macro text
and its own candidate pool only (no sibling-category text). -/
def filter_avoid_candidates (client : Client) (st : RunState)
    (macro_summary candidate_text : String) :
    Except ServiceError String × RunState :=
  prompt_model client st (filter_avoid_messages macro_summary candidate_text)

/-- Embedding of the body of `main` behind the "Get Recommendations"
button: the seven stages in their source order, fail-fast on the first
`ServiceError`. -/
def main_run (client : Client) (ctx : ActivityContext) :
    Except ServiceError AggregateRecommendation × RunState :=
  match step_one_get_macros client ⟨ctx, []⟩ ctx.activity ctx.time_until_hours with
  | (Except.error e, st) => (Except.error e, st)
  | (Except.ok macro_explanation, st) =>
  match generate_best_candidates client st macro_explanation with
  | (Except.error e, st) => (Except.error e, st)
  | (Except.ok best_candidates_20, st) =>
  match filter_best_candidates client st macro_explanation best_candidates_20 with
  | (Except.error e, st) => (Except.error e, st)
  | (Except.ok best_list_10, st) =>
  match generate_ok_candidates client st macro_explanation with
  | (Except.error e, st) => (Except.error e, st)
  | (Except.ok ok_candidates_20, st) =>
  match filter_ok_candidates client st macro_explanation ok_candidates_20 best_list_10 with
  | (Except.error e, st) => (Except.error e, st)
  | (Except.ok ok_list_10, st) =>
  match generate_avoid_candidates client st macro_explanation with
  | (Except.error e, st) => (Except.error e, st)
  | (Except.ok avoid_candidates_20, st) =>
  match filter_avoid_candidates client st macro_explanation avoid_candidates_20 with
  | (Except.error e, st) => (Except.error e, st)
  | (Except.ok avoid_list_10, st) =>
    (Except.ok ⟨macro_explanation, best_list_10, ok_list_10, avoid_list_10⟩, st)

/-- Oracle whose n-th call succeeds with raw reply `f n`. -/
def okClient (f : Nat → String) : Client :=
  fun n => Except.ok (f n)

/-- The seven requests a fully successful run issues, in order of issue:
macro ratio, then generate/filter for Best, OK, Avoid.  `f n` is the raw
reply of the n-th call, so `pyStrip (f 0)` is the macro text, `pyStrip
(f 2)` the filtered Best list, and so on. -/
def fullTrace (ctx : ActivityContext) (f : Nat → String) : List Request :=
  [⟨step_one_messages ctx.activity ctx.time_until_hours, "gpt-4o-mini", 7/10⟩,
   ⟨generate_best_messages (pyStrip (f 0)), "gpt-4o-mini", 7/10⟩,
   ⟨filter_best_messages (pyStrip (f 0)) (pyStrip (f 1)), "gpt-4o-mini", 7/10⟩,
   ⟨generate_ok_messages (pyStrip (f 0)), "gpt-4o-mini", 7/10⟩,
   ⟨filter_ok_messages (pyStrip (f 0)) (pyStrip (f 3)) (pyStrip (f 2)), "gpt-4o-mini", 7/10⟩,
   ⟨generate_avoid_messages (pyStrip (f 0)), "gpt-4o-mini", 7/10⟩,
   ⟨filter_avoid_messages (pyStrip (f 0)) (pyStrip (f 5)), "gpt-4o-mini", 7/10⟩]

/-!
StructuredParser, modelled from the spec.  The repository files under
`src/` contain only the chained variant, which never decodes a structured
reply; the spec describes the parsing/fallback component of the one-shot
variants.  The definitions below therefore follow the spec's words (§4.4):
strict structural decoding of a fixed-shape structured record, extracting
exactly the expected keys and ignoring extra ones, with a deterministic
all-empty, error-labeled fallback on any decode failure.
-/

/-- Left brace character (written by code point to keep it out of string
literals). -/
def lbrace : Char := Char.ofNat 123

/-- Right brace character. -/
def rbrace : Char := Char.ofNat 125

/-- Whitespace accepted between structural tokens of a reply. -/
def isJsonWs (c : Char) : Bool :=
  c = ' ' || c = '\n' || c = '\t' || c = '\r'

/-- A decoded field value: a text field or a list-of-text field. -/
inductive JVal where
  | jstr : String → JVal
  | jarr : List String → JVal
deriving Repr, DecidableEq

/-- Scans a quoted string body: `acc` holds the characters read so far in
reverse; stops at the closing quote, `\x` escapes the next character. -/
def scanQuotedAux : List Char → List Char → Option (String × List Char)
  | _acc, [] => none
  | acc, c :: rest =>
    if c = '"' then some (String.mk acc.reverse, rest)
    else if c = '\\' then
      match rest with
      | [] => none
      | d :: rest2 => scanQuotedAux (d :: acc) rest2
    else scanQuotedAux (c :: acc) rest

/-- Reads a double-quoted string literal at the head of the input. -/
def scanQuoted : List Char → Option (String × List Char)
  | [] => none
  | c :: rest => if c = '"' then scanQuotedAux [] rest else none

/-- Reads the elements of a non-empty string array, positioned after the
opening bracket (first element about to start); fuel bounds the recursion. -/
def scanArrayAux : Nat → List Char → List String → Option (List String × List Char)
  | 0, _, _ => none
  | fuel + 1, cs, acc =>
    match scanQuoted (cs.dropWhile isJsonWs) with
    | none => none
    | some (s, rest) =>
      match rest.dropWhile isJsonWs with
      | [] => none
      | c :: rest2 =>
        if c = ']' then some ((s :: acc).reverse, rest2)
        else if c = ',' then scanArrayAux fuel rest2 (s :: acc)
        else none

/-- Reads a bracketed array of string literals at the head of the input. -/
def scanArray (fuel : Nat) : List Char → Option (List String × List Char)
  | [] => none
  | c :: rest =>
    if c = '[' then
      match rest.dropWhile isJsonWs with
      | [] => none
      | d :: rest2 =>
        if d = ']' then some ([], rest2)
        else scanArrayAux fuel (d :: rest2) []
    else none

/-- Reads one field value: a string or an array of strings. -/
def scanValue (fuel : Nat) (cs : List Char) : Option (JVal × List Char) :=
  match cs with
  | [] => none
  | c :: _ =>
    if c = '"' then (scanQuoted cs).map (fun p => (JVal.jstr p.1, p.2))
    else if c = '[' then (scanArray fuel cs).map (fun p => (JVal.jarr p.1, p.2))
    else none

/-- Reads the members of a non-empty object, positioned at the first key;
fuel bounds the recursion. -/
def scanMembersAux : Nat → List Char → List (String × JVal) →
    Option (List (String × JVal) × List Char)
  | 0, _, _ => none
  | fuel + 1, cs, acc =>
    match scanQuoted (cs.dropWhile isJsonWs) with
    | none => none
    | some (key, rest) =>
      match rest.dropWhile isJsonWs with
      | [] => none
      | c :: rest2 =>
        if c = ':' then
          match scanValue fuel (rest2.dropWhile isJsonWs) with
          | none => none
          | some (v, rest3) =>
            match rest3.dropWhile isJsonWs with
            | [] => none
            | d :: rest4 =>
              if d = rbrace then some (((key, v) :: acc).reverse, rest4)
              else if d = ',' then scanMembersAux fuel rest4 ((key, v) :: acc)
              else none
        else none

/-- Modelled from the spec: strict structural decoding of a reply as a
structured record — a braced object of named string and string-array
fields, with nothing but whitespace around it.  Any other text fails. -/
def decodeStructured (reply : String) : Option (List (String × JVal)) :=
  match reply.data.dropWhile isJsonWs with
  | [] => none
  | c :: rest =>
    if c = lbrace then
      match rest.dropWhile isJsonWs with
      | [] => none
      | d :: rest2 =>
        if d = rbrace then
          if (rest2.dropWhile isJsonWs).isEmpty then some [] else none
        else
          match scanMembersAux reply.data.length (d :: rest2) [] with
          | none => none
          | some (members, rest3) =>
            if (rest3.dropWhile isJsonWs).isEmpty then some members else none
    else none

/-- The fixed shape a one-shot reply must decode into: the names of its
list fields and of its text fields. -/
structure ExpectedShape where
  listFields : List String
  textFields : List String
deriving Repr, DecidableEq

/-- A decoded (or fallback) recommendation: each list field's items and
each text field's text, keyed by field name. -/
structure ParsedRecord where
  lists : List (String × List String)
  texts : List (String × String)
deriving Repr, DecidableEq

/-- Extracts one expected list field from a decoded object. -/
def extractListField (obj : List (String × JVal)) (f : String) :
    Option (String × List String) :=
  match obj.lookup f with
  | some (JVal.jarr xs) => some (f, xs)
  | _ => none

/-- Extracts one expected text field from a decoded object. -/
def extractTextField (obj : List (String × JVal)) (f : String) :
    Option (String × String) :=
  match obj.lookup f with
  | some (JVal.jstr s) => some (f, s)
  | _ => none

/-- Modelled from the spec: strict decoding against the expected shape —
every expected key must be present with the right kind of value; extra
keys are extracted past and ignored. -/
def tryDecode (shape : ExpectedShape) (reply : String) : Option ParsedRecord :=
  match decodeStructured reply with
  | none => none
  | some obj =>
    match shape.listFields.mapM (extractListField obj),
          shape.textFields.mapM (extractTextField obj) with
    | some ls, some ts => some ⟨ls, ts⟩
    | _, _ => none

/-- Error-labeled message installed in a text field of the fallback. -/
def parseFailureMessage (f : String) : String :=
  "PARSE ERROR: the generation reply could not be decoded; field " ++ f

/-- Modelled from the spec: the deterministic FallbackRecommendation — all
list fields empty, every text field a fixed error-labeled message. -/
def fallbackRecommendation (shape : ExpectedShape) : ParsedRecord :=
  ⟨shape.listFields.map (fun f => (f, [])),
   shape.textFields.map (fun f => (f, parseFailureMessage f))⟩

/-- Modelled from the spec: `parse` — strict decoding, with the fallback on
any failure; total, so no exception ever reaches the caller. -/
def parse (shape : ExpectedShape) (reply : String) : ParsedRecord :=
  match tryDecode shape reply with
  | some r => r
  | none => fallbackRecommendation shape

/-- Client fixture that answers its first three calls and fails the fourth
(call index 3, the OK candidate-generation stage) with a network error. -/
def failingClient : Client :=
  fun n => if n < 3 then Except.ok "raw reply" else Except.error ServiceError.network

/-!
Helper lemmas: the shape of a run's outcome and log, and text facts about
`pyStrip` and `substringOf` used by the claim theorems.
-/

theorem main_run_ok (f : Nat → String) (ctx : ActivityContext) :
    main_run (okClient f) ctx =
      (Except.ok ⟨pyStrip (f 0), pyStrip (f 2), pyStrip (f 4), pyStrip (f 6)⟩,
       ⟨ctx, fullTrace ctx f⟩) := rfl

theorem main_run_ctx (client : Client) (ctx : ActivityContext) :
    (main_run client ctx).2.ctx = ctx := by
  simp only [main_run, step_one_get_macros, generate_best_candidates,
    filter_best_candidates, generate_ok_candidates, filter_ok_candidates,
    generate_avoid_candidates, filter_avoid_candidates, prompt_model]
  cases h0 : client 0 with
  | error e0 => simp [h0, Except.map]
  | ok r0 =>
  simp [h0, Except.map]
  cases h1 : client 1 with
  | error e1 => simp [h1, Except.map]
  | ok r1 =>
  simp [h1, Except.map]
  cases h2 : client 2 with
  | error e2 => simp [h2, Except.map]
  | ok r2 =>
  simp [h2, Except.map]
  cases h3 : client 3 with
  | error e3 => simp [h3, Except.map]
  | ok r3 =>
  simp [h3, Except.map]
  cases h4 : client 4 with
  | error e4 => simp [h4, Except.map]
  | ok r4 =>
  simp [h4, Except.map]
  cases h5 : client 5 with
  | error e5 => simp [h5, Except.map]
  | ok r5 =>
  simp [h5, Except.map]
  cases h6 : client 6 with
  | error e6 => simp [h6, Except.map]
  | ok r6 =>
  simp [h6, Except.map]

theorem main_run_req_shape (client : Client) (ctx : ActivityContext) :
    ∀ r ∈ (main_run client ctx).2.log,
      r.model = "gpt-4o-mini" ∧ r.temperature = 7/10 ∧
      r.messages.map Message.role = ["developer", "user"] := by
  simp only [main_run, step_one_get_macros, generate_best_candidates,
    filter_best_candidates, generate_ok_candidates, filter_ok_candidates,
    generate_avoid_candidates, filter_avoid_candidates, prompt_model,
    step_one_messages, generate_best_messages, filter_best_messages,
    generate_ok_messages, filter_ok_messages, generate_avoid_messages,
    filter_avoid_messages]
  cases h0 : client 0 with
  | error e0 => simp [h0, Except.map]
  | ok r0 =>
  simp [h0, Except.map]
  cases h1 : client 1 with
  | error e1 => simp [h1, Except.map]
  | ok r1 =>
  simp [h1, Except.map]
  cases h2 : client 2 with
  | error e2 => simp [h2, Except.map]
  | ok r2 =>
  simp [h2, Except.map]
  cases h3 : client 3 with
  | error e3 => simp [h3, Except.map]
  | ok r3 =>
  simp [h3, Except.map]
  cases h4 : client 4 with
  | error e4 => simp [h4, Except.map]
  | ok r4 =>
  simp [h4, Except.map]
  cases h5 : client 5 with
  | error e5 => simp [h5, Except.map]
  | ok r5 =>
  simp [h5, Except.map]
  cases h6 : client 6 with
  | error e6 => simp [h6, Except.map]
  | ok r6 =>
  simp [h6, Except.map]

theorem substringOf_self (n : String) : substringOf n n :=
  List.infix_refl n.data

theorem substringOf_right {n b : String} (a : String) (h : substringOf n b) :
    substringOf n (a ++ b) := by
  unfold substringOf at h ⊢
  rw [String.data_append]
  exact h.trans (List.suffix_append a.data b.data).isInfix

theorem substringOf_left {n a : String} (b : String) (h : substringOf n a) :
    substringOf n (a ++ b) := by
  unfold substringOf at h ⊢
  rw [String.data_append]
  exact h.trans (List.prefix_append a.data b.data).isInfix

theorem head_dropWhile_false {α : Type} {p : α → Bool} :
    ∀ (l : List α) (x : α), (l.dropWhile p).head? = some x → p x = false := by
  intro l
  induction l with
  | nil => intro x h; simp [List.dropWhile] at h
  | cons a l ih =>
    intro x h
    rw [List.dropWhile] at h
    cases hpa : p a with
    | true => rw [hpa] at h; exact ih x h
    | false => rw [hpa] at h; simp at h; rw [← h]; exact hpa

theorem pyStrip_spec (t : String) :
    (∃ pre suf,
        t.data = pre ++ (pyStrip t).data ++ suf ∧
        pre.all Char.isWhitespace = true ∧
        suf.all Char.isWhitespace = true) ∧
    ((pyStrip t).data.head?.all fun c => !c.isWhitespace) = true ∧
    ((pyStrip t).data.getLast?.all fun c => !c.isWhitespace) = true := by
  constructor
  · refine ⟨t.data.takeWhile Char.isWhitespace,
      ((t.data.dropWhile Char.isWhitespace).reverse.takeWhile Char.isWhitespace).reverse,
      ?_, ?_, ?_⟩
    · show t.data = _ ++ (String.mk _).data ++ _
      have h1 : t.data.takeWhile Char.isWhitespace ++ t.data.dropWhile Char.isWhitespace = t.data :=
        List.takeWhile_append_dropWhile _ _
      have h2 : ((t.data.dropWhile Char.isWhitespace).reverse.takeWhile Char.isWhitespace) ++
          ((t.data.dropWhile Char.isWhitespace).reverse.dropWhile Char.isWhitespace) =
          (t.data.dropWhile Char.isWhitespace).reverse :=
        List.takeWhile_append_dropWhile _ _
      have h3 : t.data.dropWhile Char.isWhitespace =
          ((t.data.dropWhile Char.isWhitespace).reverse.dropWhile Char.isWhitespace).reverse ++
          ((t.data.dropWhile Char.isWhitespace).reverse.takeWhile Char.isWhitespace).reverse := by
        have := congrArg List.reverse h2
        rw [List.reverse_append, List.reverse_reverse] at this
        exact this.symm
      rw [List.append_assoc, ← h3, h1]
    · rw [List.all_eq_true]
      intro c hc
      exact List.mem_takeWhile_imp hc
    · rw [List.all_eq_true]
      intro c hc
      rw [List.mem_reverse] at hc
      exact List.mem_takeWhile_imp hc
  constructor
  · cases hh : (pyStrip t).data.head? with
    | none => rfl
    | some c =>
      have hcore : (pyStrip t).data =
          ((t.data.dropWhile Char.isWhitespace).reverse.dropWhile Char.isWhitespace).reverse := rfl
      have h2 : ((t.data.dropWhile Char.isWhitespace).reverse.takeWhile Char.isWhitespace) ++
          ((t.data.dropWhile Char.isWhitespace).reverse.dropWhile Char.isWhitespace) =
          (t.data.dropWhile Char.isWhitespace).reverse :=
        List.takeWhile_append_dropWhile _ _
      have h3 : t.data.dropWhile Char.isWhitespace =
          (pyStrip t).data ++
          ((t.data.dropWhile Char.isWhitespace).reverse.takeWhile Char.isWhitespace).reverse := by
        rw [hcore]
        have := congrArg List.reverse h2
        rw [List.reverse_append, List.reverse_reverse] at this
        exact this.symm
      have hhead : (t.data.dropWhile Char.isWhitespace).head? = some c := by
        rw [h3, List.head?_append, hh]
        rfl
      have := head_dropWhile_false (t.data) c hhead
      simp [hh, this]
  · cases hh : (pyStrip t).data.getLast? with
    | none => rfl
    | some c =>
      have hcore : (pyStrip t).data =
          ((t.data.dropWhile Char.isWhitespace).reverse.dropWhile Char.isWhitespace).reverse := rfl
      have hlast : ((t.data.dropWhile Char.isWhitespace).reverse.dropWhile Char.isWhitespace).head? = some c := by
        rw [← List.getLast?_reverse, ← hcore, hh]
      have := head_dropWhile_false ((t.data.dropWhile Char.isWhitespace).reverse) c hlast
      simp [hh, this]

theorem parseFailureMessage_injective : Function.Injective parseFailureMessage := by
  intro a b hab
  simp only [parseFailureMessage] at hab
  have := congrArg String.data hab
  rw [String.data_append, String.data_append] at this
  exact String.ext (List.append_cancel_left this)

/-- Claim C1: for every valid ActivityContext (time_until_hours ≥ 0), one
chained-mode run over the three categories issues exactly 1 + 2*3 = 7
generation calls, and the log lists them in their sequential order: the
macro-ratio call, then a candidate-generation call and a candidate-filtering
call for Best, then for OK, then for Avoid (`fullTrace`). -/
theorem chained_run_issues_seven_calls (f : Nat → String) (ctx : ActivityContext)
    (_h : 0 ≤ ctx.time_until_hours) :
    (main_run (okClient f) ctx).2.log = fullTrace ctx f ∧
    (main_run (okClient f) ctx).2.log.length = 7 :=
  ⟨rfl, rfl⟩

/-- Witness for C1 at the concrete context (running, 1 hour). -/
theorem chained_run_issues_seven_calls_witness :
    (0:ℚ) ≤ (⟨"running", 1⟩ : ActivityContext).time_until_hours ∧
    (main_run (okClient fun _ => "x") ⟨"running", 1⟩).2.log.length = 7 :=
  ⟨by decide,
   (chained_run_issues_seven_calls (fun _ => "x") ⟨"running", 1⟩ (by decide)).2⟩

/-- Claim C2: the OK filtering request (call index 4) is built from the
*filtered* Best output `pyStrip (f 2)` (the reply of the Best filtering
call, index 2), not from the raw 20-candidate Best pool `pyStrip (f 1)`;
whatever Best-list text is passed appears verbatim inside the OK filtering
prompt; and the Best and Avoid filtering requests are built by functions of
the macro text and their own candidate pool only, with no sibling-category
text. -/
theorem ok_filter_receives_filtered_best (f : Nat → String) (ctx : ActivityContext)
    (m c b : String) :
    ((main_run (okClient f) ctx).2.log)[4]? =
      some ⟨filter_ok_messages (pyStrip (f 0)) (pyStrip (f 3)) (pyStrip (f 2)),
        "gpt-4o-mini", 7/10⟩ ∧
    substringOf b (filter_ok_user_content m c b) ∧
    ((main_run (okClient f) ctx).2.log)[2]? =
      some ⟨filter_best_messages (pyStrip (f 0)) (pyStrip (f 1)), "gpt-4o-mini", 7/10⟩ ∧
    ((main_run (okClient f) ctx).2.log)[6]? =
      some ⟨filter_avoid_messages (pyStrip (f 0)) (pyStrip (f 5)), "gpt-4o-mini", 7/10⟩ :=
  ⟨rfl, substringOf_left _ (substringOf_right _ (substringOf_self b)), rfl, rfl⟩

/-- Claim C3: the macro text produced by the macro-ratio stage is what every
candidate-generation request (call indices 1, 3, 5) is built from, and any
macro text appears verbatim (as a contiguous substring) in the
user-instruction content of all three candidate-generation prompts. -/
theorem macro_text_verbatim_in_generation_prompts (f : Nat → String)
    (ctx : ActivityContext) :
    ((main_run (okClient f) ctx).2.log)[1]? =
      some ⟨generate_best_messages (pyStrip (f 0)), "gpt-4o-mini", 7/10⟩ ∧
    ((main_run (okClient f) ctx).2.log)[3]? =
      some ⟨generate_ok_messages (pyStrip (f 0)), "gpt-4o-mini", 7/10⟩ ∧
    ((main_run (okClient f) ctx).2.log)[5]? =
      some ⟨generate_avoid_messages (pyStrip (f 0)), "gpt-4o-mini", 7/10⟩ ∧
    ∀ m : String,
      substringOf m (generate_best_user_content m) ∧
      substringOf m (generate_ok_user_content m) ∧
      substringOf m (generate_avoid_user_content m) :=
  ⟨rfl, rfl, rfl, fun m =>
    ⟨substringOf_left _ (substringOf_right _ (substringOf_self m)),
     substringOf_left _ (substringOf_right _ (substringOf_self m)),
     substringOf_left _ (substringOf_right _ (substringOf_self m))⟩⟩

/-- Claim C4: if the service fails at call index k of a chained run, the
run's result is that error (no partial AggregateRecommendation) and the log
stops at the failing call: exactly k+1 requests were issued, so no later
stage ran. -/
theorem service_error_aborts_remaining_stages (client : Client)
    (ctx : ActivityContext) (k : Nat) (e : ServiceError) (hk : k < 7)
    (hfail : client k = Except.error e)
    (hok : ∀ i, i < k → ∃ s, client i = Except.ok s) :
    (main_run client ctx).1 = Except.error e ∧
    (main_run client ctx).2.log.length = k + 1 := by
  simp only [main_run, step_one_get_macros, generate_best_candidates,
    filter_best_candidates, generate_ok_candidates, filter_ok_candidates,
    generate_avoid_candidates, filter_avoid_candidates, prompt_model]
  interval_cases k
  · simp [hfail, Except.map]
  · obtain ⟨s0, h0⟩ := hok 0 (by omega)
    simp [h0, hfail, Except.map]
  · obtain ⟨s0, h0⟩ := hok 0 (by omega)
    obtain ⟨s1, h1⟩ := hok 1 (by omega)
    simp [h0, h1, hfail, Except.map]
  · obtain ⟨s0, h0⟩ := hok 0 (by omega)
    obtain ⟨s1, h1⟩ := hok 1 (by omega)
    obtain ⟨s2, h2⟩ := hok 2 (by omega)
    simp [h0, h1, h2, hfail, Except.map]
  · obtain ⟨s0, h0⟩ := hok 0 (by omega)
    obtain ⟨s1, h1⟩ := hok 1 (by omega)
    obtain ⟨s2, h2⟩ := hok 2 (by omega)
    obtain ⟨s3, h3⟩ := hok 3 (by omega)
    simp [h0, h1, h2, h3, hfail, Except.map]
  · obtain ⟨s0, h0⟩ := hok 0 (by omega)
    obtain ⟨s1, h1⟩ := hok 1 (by omega)
    obtain ⟨s2, h2⟩ := hok 2 (by omega)
    obtain ⟨s3, h3⟩ := hok 3 (by omega)
    obtain ⟨s4, h4⟩ := hok 4 (by omega)
    simp [h0, h1, h2, h3, h4, hfail, Except.map]
  · obtain ⟨s0, h0⟩ := hok 0 (by omega)
    obtain ⟨s1, h1⟩ := hok 1 (by omega)
    obtain ⟨s2, h2⟩ := hok 2 (by omega)
    obtain ⟨s3, h3⟩ := hok 3 (by omega)
    obtain ⟨s4, h4⟩ := hok 4 (by omega)
    obtain ⟨s5, h5⟩ := hok 5 (by omega)
    simp [h0, h1, h2, h3, h4, h5, hfail, Except.map]

/-- Witness for C4: `failingClient` fails its fourth call (index 3, the OK
candidate-generation stage); the run returns that error and issued exactly
four requests. -/
theorem service_error_aborts_remaining_stages_witness :
    (3 : Nat) < 7 ∧ failingClient 3 = Except.error ServiceError.network ∧
    (main_run failingClient ⟨"running", 1⟩).1 = Except.error ServiceError.network ∧
    (main_run failingClient ⟨"running", 1⟩).2.log.length = 3 + 1 := by
  have h := service_error_aborts_remaining_stages failingClient ⟨"running", 1⟩ 3
    ServiceError.network (by decide) rfl
    (fun i hi => ⟨"raw reply", by simp [failingClient, hi]⟩)
  exact ⟨by decide, rfl, h.1, h.2⟩

/-- Claim C5: on any reply strict decoding rejects (e.g. the literal text
"not json"), `parse` returns the fallback record in which every list field
is empty and every text field is a non-empty, error-labeled message, and
those messages are pairwise distinct when the shape's text-field names are;
`parse` is a total function, so no exception reaches the caller. -/
theorem parse_falls_back_on_invalid_reply (shape : ExpectedShape) (reply : String)
    (hfail : tryDecode shape reply = none) (hnd : shape.textFields.Nodup) :
    parse shape reply = fallbackRecommendation shape ∧
    (∀ p ∈ (parse shape reply).lists, p.2 = []) ∧
    (∀ p ∈ (parse shape reply).texts,
        p.2 ≠ "" ∧ substringOf "PARSE ERROR" p.2) ∧
    ((parse shape reply).texts.map Prod.snd).Nodup := by
  have hparse : parse shape reply = fallbackRecommendation shape := by
    simp [parse, hfail]
  refine ⟨hparse, ?_, ?_, ?_⟩
  · rw [hparse]
    intro p hp
    simp only [fallbackRecommendation, List.mem_map] at hp
    obtain ⟨fld, -, rfl⟩ := hp
    rfl
  · rw [hparse]
    intro p hp
    simp only [fallbackRecommendation, List.mem_map] at hp
    obtain ⟨fld, -, rfl⟩ := hp
    constructor
    · intro hempty
      have hdata := congrArg String.data hempty
      simp only [parseFailureMessage, String.data_append] at hdata
      have := (List.append_eq_nil.mp hdata).1
      exact absurd this (by decide)
    · show substringOf "PARSE ERROR" (parseFailureMessage fld)
      exact substringOf_left _ (by decide)
  · rw [hparse]
    simp only [fallbackRecommendation, List.map_map]
    have hcomp : (Prod.snd ∘ fun fld : String => (fld, parseFailureMessage fld)) =
        parseFailureMessage := rfl
    rw [hcomp]
    exact hnd.map parseFailureMessage_injective

/-- Witness for C5: the literal reply "not json" against the shape with
list fields foods_to_eat, foods_to_avoid and text field explanation. -/
theorem parse_falls_back_on_invalid_reply_witness :
    tryDecode ⟨["foods_to_eat", "foods_to_avoid"], ["explanation"]⟩ "not json" = none ∧
    (⟨["foods_to_eat", "foods_to_avoid"], ["explanation"]⟩ : ExpectedShape).textFields.Nodup ∧
    parse ⟨["foods_to_eat", "foods_to_avoid"], ["explanation"]⟩ "not json" =
      fallbackRecommendation ⟨["foods_to_eat", "foods_to_avoid"], ["explanation"]⟩ :=
  ⟨rfl, by decide,
   (parse_falls_back_on_invalid_reply ⟨["foods_to_eat", "foods_to_avoid"], ["explanation"]⟩
      "not json" rfl (by decide)).1⟩

/-- Claim C6: every candidate-generation prompt requests 20 items and every
filtering prompt requests 10 items (the request text is embedded verbatim
in the user-instruction content), and 10 < 20: the candidate pool is
strictly over-generated relative to the filter target. -/
theorem candidate_pool_exceeds_filter_target (m c b : String) :
    substringOf "bullet list of 20 potential 'Best' food/drink items"
      (generate_best_user_content m) ∧
    substringOf "bullet list of 20 'OK' food/drink items"
      (generate_ok_user_content m) ∧
    substringOf "bullet list of 20 'Avoid' food/drink items"
      (generate_avoid_user_content m) ∧
    substringOf "bullet list of 10 items" (filter_best_user_content m c) ∧
    substringOf "bullet list of 10 items" (filter_ok_user_content m c b) ∧
    substringOf "bullet list of 10 items" (filter_avoid_user_content m c) ∧
    (10 : Nat) < 20 :=
  ⟨substringOf_right _ (by decide),
   substringOf_right _ (by decide),
   substringOf_right _ (by decide),
   substringOf_right _ (by decide),
   substringOf_right _ (by decide),
   substringOf_right _ (by decide),
   by decide⟩

/-- Claim C7: `prompt_model` returns the service's raw reply with leading
and trailing whitespace removed and otherwise unchanged: the raw text
splits as whitespace ++ stripped ++ whitespace, the stripped text neither
starts nor ends with whitespace, and the value `prompt_model` yields is
exactly `pyStrip` of the raw reply. -/
theorem reply_stripped_of_edge_whitespace_only (t : String) :
    (∃ pre suf,
        t.data = pre ++ (pyStrip t).data ++ suf ∧
        pre.all Char.isWhitespace = true ∧
        suf.all Char.isWhitespace = true) ∧
    ((pyStrip t).data.head?.all fun c => !c.isWhitespace) = true ∧
    ((pyStrip t).data.getLast?.all fun c => !c.isWhitespace) = true ∧
    ∀ (client : Client) (st : RunState) (messages : List Message),
      (prompt_model client st messages).1 =
        Except.map pyStrip (client st.log.length) :=
  ⟨(pyStrip_spec t).1, (pyStrip_spec t).2.1, (pyStrip_spec t).2.2,
   fun _ _ _ => rfl⟩

/-- Claim C8: every request any run issues carries the fixed temperature
0.7, a real number within [0, 2]. -/
theorem generation_temperature_within_range (client : Client)
    (ctx : ActivityContext) :
    ∀ r ∈ (main_run client ctx).2.log,
      r.temperature = 7/10 ∧ 0 ≤ r.temperature ∧ r.temperature ≤ 2 := by
  intro r hr
  obtain ⟨-, ht, -⟩ := main_run_req_shape client ctx r hr
  refine ⟨ht, ?_, ?_⟩ <;> rw [ht] <;> norm_num

/-- Witness for C8 at the Best candidate-generation request of a concrete
successful run. -/
theorem generation_temperature_within_range_witness :
    (⟨generate_best_messages (pyStrip "x"), "gpt-4o-mini", 7/10⟩ : Request).temperature = 7/10 ∧
    (0:ℚ) ≤ (⟨generate_best_messages (pyStrip "x"), "gpt-4o-mini", 7/10⟩ : Request).temperature ∧
    (⟨generate_best_messages (pyStrip "x"), "gpt-4o-mini", 7/10⟩ : Request).temperature ≤ 2 :=
  generation_temperature_within_range (okClient fun _ => "x") ⟨"running", 1⟩
    ⟨generate_best_messages (pyStrip "x"), "gpt-4o-mini", 7/10⟩
    (List.mem_cons_of_mem _ (List.mem_cons_self _ _))

/-- Claim C9: a run never mutates its input: whatever the client does, the
context carried through the run is the one given, and on a successful run
the four stage outputs are threaded unmodified into the returned
AggregateRecommendation. -/
theorem run_preserves_context_and_artifacts (client : Client)
    (ctx : ActivityContext) (f : Nat → String) :
    (main_run client ctx).2.ctx = ctx ∧
    (main_run (okClient f) ctx).1 =
      Except.ok ⟨pyStrip (f 0), pyStrip (f 2), pyStrip (f 4), pyStrip (f 6)⟩ :=
  ⟨main_run_ctx client ctx, by rw [main_run_ok]⟩

/-- Claim C10: each of the seven stages sends exactly two messages, the
first with role developer and the second with role user, for every input. -/
theorem stage_messages_developer_then_user (a : String) (t : ℚ) (m c b : String) :
    (step_one_messages a t).map Message.role = ["developer", "user"] ∧
    (generate_best_messages m).map Message.role = ["developer", "user"] ∧
    (filter_best_messages m c).map Message.role = ["developer", "user"] ∧
    (generate_ok_messages m).map Message.role = ["developer", "user"] ∧
    (filter_ok_messages m c b).map Message.role = ["developer", "user"] ∧
    (generate_avoid_messages m).map Message.role = ["developer", "user"] ∧
    (filter_avoid_messages m c).map Message.role = ["developer", "user"] ∧
    (step_one_messages a t).length = 2 ∧
    (generate_best_messages m).length = 2 ∧
    (filter_best_messages m c).length = 2 ∧
    (generate_ok_messages m).length = 2 ∧
    (filter_ok_messages m c b).length = 2 ∧
    (generate_avoid_messages m).length = 2 ∧
    (filter_avoid_messages m c).length = 2 :=
  ⟨rfl, rfl, rfl, rfl, rfl, rfl, rfl, rfl, rfl, rfl, rfl, rfl, rfl, rfl⟩
